import Mathlib

/-!
Verification of the `llm-seo` website-audit tool (package `src/llm_seo`).

The development shallowly embeds the core of the tool:

* `crawler.py` — `crawl_site`: bounded breadth-first crawl;
* `checks.py` — the five technical checks;
* `llm_scraper.py` / `llm_analysis.py` — the LLM content analyses feeding
  `score_page`;
* `scoring.py` — `score_page` and `calculate_scores`;
* `cli.py` — the `audit` command's control flow.

External collaborators are modelled as explicit parameters, following the
repository's own architecture notes: the HTTP transport is a function from a
URL to an optional response (`none` = the request raised), HTML parsing is a
capability exposing the tag/attribute queries the code performs (the `Doc`
structure below), and the OpenAI service is an opaque value.

Python strings are modelled as Lean `String`s; every string operation the
code performs (`lower`, `strip`, `split`, `startswith`, containment) is
reimplemented here by structural recursion over the character list so that
all definitions evaluate inside the kernel.
-/

/-! ## Python string primitives -/

/-- `str.lower` for the ASCII range (the inputs the audited code lowercases are
ASCII directives such as `User-agent`). -/
def chLower (c : Char) : Char :=
  if 65 ≤ c.toNat ∧ c.toNat ≤ 90 then Char.ofNat (c.toNat + 32) else c

/-- `str.lower`. -/
def strLower (s : String) : String := ⟨s.data.map chLower⟩

/-- Python's default `str.strip` whitespace class. -/
def wsChar (c : Char) : Bool :=
  c == ' ' || c == '\t' || c == '\n' || c == '\r' || c == '\x0b' || c == '\x0c'

/-- `str.strip()`. -/
def strStrip (s : String) : String :=
  ⟨((s.data.dropWhile wsChar).reverse.dropWhile wsChar).reverse⟩

/-- `str.startswith`. -/
def strStarts (s pre : String) : Bool := pre.data.isPrefixOf s.data

/-- Python's `needle in hay` substring test. -/
def strHas (hay needle : String) : Bool :=
  hay.data.tails.any (fun t => needle.data.isPrefixOf t)

/-- Split a character list at every occurrence of `c` (Python `str.split(c)`). -/
def splitOnChar (c : Char) : List Char → List (List Char)
  | [] => [[]]
  | x :: xs =>
    if x = c then [] :: splitOnChar c xs
    else
      match splitOnChar c xs with
      | [] => [[x]]
      | y :: ys => (x :: y) :: ys

/-- `str.split('\n')`. -/
def strLines (s : String) : List String := (splitOnChar '\n' s.data).map String.mk

/-- Drop every character up to and including the first occurrence of `c`. -/
def afterChar (c : Char) : List Char → List Char
  | [] => []
  | x :: xs => if x = c then xs else afterChar c xs

/-- `str.split(':', 1)[1]` for a string known to contain a colon. -/
def strAfterColon (s : String) : String := ⟨afterChar ':' s.data⟩

/-- `str.split()`: split on whitespace runs, dropping empty pieces; the code
only ever takes the length of the result (a word count). -/
def wordCount (s : String) : Nat :=
  ((s.data.splitOnP (wsChar ·)).filter (fun w => w ≠ [])).length

/-- Python `len` on a string (character count). -/
def strLen (s : String) : Nat := s.data.length

/-- Python `"sep".join`. -/
def strJoin (sep : String) (parts : List String) : String :=
  String.intercalate sep parts

/-! ## URLs and page records

A URL is modelled structurally, as `urllib.parse` exposes it: scheme, host
(`netloc`), path, query and fragment.  `crawl_site` additionally prefixes
`https://` to a scheme-less seed string; that string-level normalization
happens before any behavior the claims mention, so `crawl_site` is embedded
as taking the parsed seed URL. -/

structure Url where
  scheme : String
  host : String
  path : String
  query : String
  fragment : String
  deriving DecidableEq, Repr

/-- `urllib.parse.urldefrag`: the URL with its fragment removed (the code
discards the returned fragment component). -/
def urldefrag (u : Url) : Url := { u with fragment := "" }

theorem urldefrag_host (u : Url) : (urldefrag u).host = u.host := rfl

theorem urldefrag_fragment (u : Url) : (urldefrag u).fragment = "" := rfl

/-! ## The parsed-markup capability

`Doc` is the external HTML-parsing collaborator: it records, for one page's
markup, the result of each query the audited code performs on the
`BeautifulSoup` object.  Fields prefixed `main` are the same queries run
after the code has removed `nav`/`footer`/`aside`/`header` subtrees
(`scrape_as_llm` does this before collecting paragraphs, images and lists;
the other analyses query the whole document). -/

structure Doc where
  /-- `<title>` text, stripped; `""` when the tag is absent or empty. -/
  title : String
  /-- `content` attribute of the first `<meta name="robots">`; `none` when no
  such tag exists (a missing attribute reads as `""`). -/
  metaRobots : Option String
  /-- `content` attribute of the first `<meta name="description">`. -/
  metaDescription : Option String
  /-- every `h1`–`h6`: (level, stripped text). -/
  headings : List (Nat × String)
  /-- stripped text of every `<p>`. -/
  paragraphs : List String
  /-- stripped text of the `<p>` elements outside nav/footer/aside/header. -/
  mainParagraphs : List String
  /-- per `<ul>`/`<ol>`: the stripped text of its `<li>` items. -/
  listsItems : List (List String)
  /-- the same for lists outside nav/footer/aside/header. -/
  mainListsItems : List (List String)
  /-- `alt` attribute of every `<img>` (`none` = attribute absent). -/
  imgAlts : List (Option String)
  /-- the same for images outside nav/footer/aside/header. -/
  mainImgAlts : List (Option String)
  /-- per `application/ld+json` script: whether its body parses as JSON. -/
  jsonldScripts : List Bool
  tables : Nat
  forms : Nat
  iframes : Nat
  canvas : Nat
  svg : Nat
  /-- `audio` + `video` element count. -/
  media : Nat
  /-- elements carrying an `onclick` attribute. -/
  onclick : Nat
  deriving DecidableEq, Repr

/-- Stripped texts of the `h1` tags, in document order. -/
def h1Texts (d : Doc) : List String :=
  (d.headings.filter (fun h => h.1 = 1)).map (fun h => h.2)

/-- Stripped texts of the `h2` tags, in document order. -/
def h2Texts (d : Doc) : List String :=
  (d.headings.filter (fun h => h.1 = 2)).map (fun h => h.2)

/-- A page record as produced by `crawl_site` (`crawler.py` lines 39–44):
on success the dict holds `url`, `html`, `status_code` and `depth`.  The
`error` field of the spec's data model is carried as an `Option` so that the
record type can also express the spec's failed-fetch records; the embedded
crawler, like the source, never constructs one. -/
structure PageRecord where
  url : Url
  html : Option Doc
  statusCode : Option Nat
  error : Option String
  depth : Nat
  deriving DecidableEq, Repr

/-- A successful HTTP response to `requests.get` followed by
`raise_for_status`: the status code, the parsed markup of `response.text`,
and the absolute URLs of the `<a href>` links found in it (the source
resolves each href with `urljoin`; resolution is part of the parsing
collaborator here). -/
structure Fetched where
  status : Nat
  doc : Doc
  links : List Url
  deriving Repr

/-- The network: `none` means the fetch raised (connection error, timeout, or
a non-2xx status raised by `raise_for_status`). -/
def Net : Type := Url → Option Fetched

/-! ## The crawler (`src/llm_seo/crawler.py`, `crawl_site`) -/

/-- The success-branch page dict (`crawler.py` lines 39–44): `error` is not
set by the source; it is recorded as `none`. -/
def mkPage (nurl : Url) (depth : Nat) (f : Fetched) : PageRecord :=
  { url := nurl, html := some f.doc, statusCode := some f.status,
    error := none, depth := depth }

/-- Link discovery (`crawler.py` lines 49–63): when `depth < max_depth`,
defragment each discovered absolute URL and keep those whose host equals the
current page's host and which are not yet visited (the current page was added
to `visited` before the fetch). -/
def enqueueLinks (maxDepth depth : Nat) (nurl : Url) (visited : List Url)
    (links : List Url) : List (Url × Nat) :=
  if depth < maxDepth then
    ((links.map urldefrag).filter
      (fun l => l.host = nurl.host ∧ l ∉ (nurl :: visited))).map
      (fun l => (l, depth + 1))
  else []

/-- The `while to_visit and len(pages_data) < 50` loop of `crawl_site`.
State: the queue, the visited set, the collected page dicts, and — as an
instrumentation of the observable network traffic — the list of URLs passed
to `requests.get`, in order.  A failing fetch (`except` branch, lines 68–70)
prints and `continue`s: no page record is appended and no links are
enqueued. -/
def crawlLoop (net : Net) (maxDepth : Nat) :
    List (Url × Nat) → List Url → List PageRecord → List Url →
    (List PageRecord × List Url)
  | [], _, pages, log => (pages, log)
  | (url, depth) :: rest, visited, pages, log =>
    if _h50 : 50 ≤ pages.length then (pages, log)
    else if urldefrag url ∈ visited ∨ maxDepth < depth then
      crawlLoop net maxDepth rest visited pages log
    else
      match net (urldefrag url) with
      | none =>
        crawlLoop net maxDepth rest (urldefrag url :: visited) pages
          (log ++ [urldefrag url])
      | some f =>
        crawlLoop net maxDepth
          (rest ++ enqueueLinks maxDepth depth (urldefrag url) visited f.links)
          (urldefrag url :: visited)
          (pages ++ [mkPage (urldefrag url) depth f])
          (log ++ [urldefrag url])
  termination_by q _ pages _ => (50 - pages.length, q.length)
  decreasing_by
  · apply Prod.Lex.right; simp
  · apply Prod.Lex.right; simp
  · apply Prod.Lex.left; simp; omega

/-- `crawl_site` together with its fetch trace. -/
def crawlTrace (net : Net) (start : Url) (maxDepth : Nat) :
    List PageRecord × List Url :=
  crawlLoop net maxDepth [(start, 0)] [] [] []

/-- `crawl_site(start_url, max_depth)`: the collected page dicts. -/
def crawl_site (net : Net) (start : Url) (maxDepth : Nat) : List PageRecord :=
  (crawlTrace net start maxDepth).1

/-! ## Check results (`checks.py`)

Each check returns a dict `{'passed': bool, 'message': str}` (some checks
attach a further `data` payload; no consumer relevant to the verified
properties reads it, and it is not modelled). -/

structure CheckResult where
  passed : Bool
  message : String
  deriving DecidableEq, Repr

/-- The `TypeError` message Python raises when `BeautifulSoup` is handed
`None` instead of markup (quotes around NoneType elided). -/
def noneLenMsg : String := "object of type NoneType has no len()"

/-! ### `check_robots_txt_allows_crawling` (`checks.py` lines 10–60) -/

/-- A raw HTTP response as `requests.get` returns it when no exception is
raised: `robots.txt` is fetched without `raise_for_status`, so non-2xx
statuses arrive here as values. -/
structure RawResp where
  status : Nat
  text : String
  deriving DecidableEq, Repr

/-- The robots.txt transport: `none` = `requests.get` raised. -/
def RobotsNet : Type := Url → Option RawResp

/-- `urljoin(base_url, '/robots.txt')` where `base_url` is
`scheme://netloc` of the page URL. -/
def robotsUrl (u : Url) : Url :=
  { scheme := u.scheme, host := u.host, path := "/robots.txt",
    query := "", fragment := "" }

/-- Line preprocessing (`checks.py` line 30): split the (already lowercased)
body on newlines, strip each line, drop blanks and `#` comments. -/
def robotsLines (content : String) : List String :=
  ((strLines content).map strStrip).filter
    (fun l => l ≠ "" ∧ strStarts l "#" = false)

/-- The wildcard-group scan (`checks.py` lines 33–45): track whether the
current `user-agent` group is `*`, collecting the stripped `disallow:` paths
seen while inside a wildcard group.  (The source's final `elif ... break` arm
is unreachable — the first `if` already matches `user-agent:` lines — and has
no counterpart here.) -/
def wildcardDisallows (lines : List String) : List String :=
  (lines.foldl
    (fun (st : Bool × List String) line =>
      if strStarts line "user-agent:" = true then
        (strStrip (strAfterColon line) = "*", st.2)
      else if st.1 ∧ strStarts line "disallow:" = true then
        (st.1, st.2 ++ [strStrip (strAfterColon line)])
      else st)
    (false, [])).2

/-- The body of `check_robots_txt_allows_crawling` applied to the outcome of
the `robots.txt` fetch. -/
def robotsVerdict (resp : Option RawResp) : CheckResult :=
  match resp with
  | none =>
    -- `except` branch: network errors are treated as no restriction; the
    -- source interpolates `str(e)` after the colon.
    { passed := true, message := "Could not check robots.txt (allows crawling)" }
  | some r =>
    if r.status = 404 then
      { passed := true, message := "No robots.txt found (allows crawling per RFC)" }
    else if r.status ≠ 200 then
      { passed := true,
        message := "robots.txt returned " ++ Nat.repr r.status ++ " (allows crawling)" }
    else
      let lines := robotsLines (strLower r.text)
      if "/" ∈ wildcardDisallows lines ∧
          lines.filter (fun l => strStarts l "allow:") = [] then
        { passed := false, message := "robots.txt disallows all crawling" }
      else
        { passed := true, message := "robots.txt allows crawling" }

/-- `check_robots_txt_allows_crawling(page_data)`. -/
def check_robots_txt_allows_crawling (rnet : RobotsNet) (p : PageRecord) :
    CheckResult :=
  robotsVerdict (rnet (robotsUrl p.url))

/-! ### The four markup checks (`checks.py` lines 63–162)

Each of these begins with `BeautifulSoup(page_data['html'], 'html.parser')`,
which raises a `TypeError` when `html` is `None`; none of them catches it, so
they are embedded in `Except`. -/

/-- Body of `check_meta_robots_allows_indexing` on parsed markup. -/
def metaRobotsVerdict (d : Doc) : CheckResult :=
  match d.metaRobots with
  | none => { passed := true, message := "No meta robots tag (allows indexing)" }
  | some c =>
    if strHas (strLower c) "noindex" = true then
      { passed := false, message := "Meta robots contains noindex" }
    else
      { passed := true, message := "Meta robots allows indexing" }

/-- `check_meta_robots_allows_indexing` (`checks.py` lines 63–77). -/
def check_meta_robots_allows_indexing (p : PageRecord) :
    Except String CheckResult :=
  match p.html with
  | none => Except.error noneLenMsg
  | some d => Except.ok (metaRobotsVerdict d)

/-- Navigation words excluded by the H2 fallback scan. -/
def navWordIn (t : String) : Bool :=
  strHas t "menu" || strHas t "navigation" || strHas t "skip to"

/-- Body of `check_has_h1_tag` on parsed markup. -/
def h1Verdict (d : Doc) : CheckResult :=
  match h1Texts d with
  | [] =>
    -- no H1: look for a plausible H2 main heading
    match (h2Texts d).find?
        (fun t => strLen t > 10 ∧ navWordIn (strLower t) = false) with
    | some t =>
      { passed := false,
        message := "No H1 found, but H2 could be main heading: \"" ++
          ⟨t.data.take 50⟩ ++ "...\" - Consider changing to H1 for better SEO" }
    | none =>
      { passed := false,
        message := "No H1 tag found - Add a clear main heading for better AI understanding" }
  | [t] =>
    if t = "" then
      { passed := false, message := "H1 tag is empty" }
    else
      { passed := true,
        message := "H1 tag found: \"" ++ ⟨t.data.take 50⟩ ++ "...\"" }
  | ts =>
    { passed := false,
      message := "Multiple H1 tags found (" ++ Nat.repr ts.length ++
        "), should have exactly one" }

/-- `check_has_h1_tag` (`checks.py` lines 80–106). -/
def check_has_h1_tag (p : PageRecord) : Except String CheckResult :=
  match p.html with
  | none => Except.error noneLenMsg
  | some d => Except.ok (h1Verdict d)

/-- Body of `check_has_meta_description` on parsed markup. -/
def metaDescriptionVerdict (d : Doc) : CheckResult :=
  match d.metaDescription with
  | none => { passed := false, message := "No meta description found" }
  | some c0 =>
    let content := strStrip c0
    if content = "" then
      { passed := false, message := "Meta description is empty" }
    else if strLen content < 120 then
      { passed := false,
        message := "Meta description too short (" ++ Nat.repr (strLen content) ++
          " chars, recommend 120-160)" }
    else if strLen content > 160 then
      { passed := false,
        message := "Meta description too long (" ++ Nat.repr (strLen content) ++
          " chars, recommend 120-160)" }
    else
      { passed := true,
        message := "Good meta description (" ++ Nat.repr (strLen content) ++ " chars)" }

/-- `check_has_meta_description` (`checks.py` lines 109–129). -/
def check_has_meta_description (p : PageRecord) : Except String CheckResult :=
  match p.html with
  | none => Except.error noneLenMsg
  | some d => Except.ok (metaDescriptionVerdict d)

/-- Body of `check_images_have_alt_text` on parsed markup. -/
def altTextVerdict (d : Doc) : CheckResult :=
  let imgs := d.imgAlts
  if imgs = [] then
    { passed := true, message := "No images found" }
  else
    let missing := imgs.countP (fun a => a = none)
    let emptyAlt := imgs.countP
      (fun a => match a with
        | some t => strStrip t = ""
        | none => false)
    let total := missing + emptyAlt
    if total = 0 then
      { passed := true,
        message := "All " ++ Nat.repr imgs.length ++ " images have alt text" }
    else if total = imgs.length then
      { passed := false,
        message := "All " ++ Nat.repr imgs.length ++ " images missing alt text" }
    else
      { passed := false,
        message := Nat.repr total ++ "/" ++ Nat.repr imgs.length ++
          " images missing/empty alt text" }

/-- `check_images_have_alt_text` (`checks.py` lines 132–161). -/
def check_images_have_alt_text (p : PageRecord) : Except String CheckResult :=
  match p.html with
  | none => Except.error noneLenMsg
  | some d => Except.ok (altTextVerdict d)

/-! ## LLM content extraction (`llm_scraper.py`, `llm_analysis.py`)

`score_page` consults three helpers.  `analyze_llm_accessibility` only fills
the unmodelled `data` payload of one check; it is not embedded.  The other
two contribute the `passed` flags of the `llm_content_richness` and
`llm_content_analysis` checks and the figures interpolated into check
messages. -/

/-- The fields of the content dict built by `scrape_as_llm` that are consumed
downstream (`structuredData`, `imagesWithContext` and `listsContent` are
consumed only through their lengths and are stored as counts). -/
structure LlmContent where
  title : String
  /-- headings with non-empty stripped text. -/
  headings : List (Nat × String)
  /-- `"\n\n".join` of the main-area paragraphs longer than 20 characters. -/
  mainContent : String
  /-- parsed JSON-LD blocks.  `scrape_as_llm` removes every `<script>` tag
  (line 15) before querying for `application/ld+json` scripts (line 66), so
  this collection is always empty in the source. -/
  structuredData : Nat
  /-- main-area images whose stripped `alt` text is non-empty. -/
  imagesWithContext : Nat
  /-- main-area lists with at least one non-empty item. -/
  listsContent : Nat
  /-- `metadata['description']`: the stripped `content` of the description
  meta tag, present exactly when the tag exists. -/
  metaDescription : Option String
  llmRichnessScore : Nat
  deriving DecidableEq, Repr

/-- `calculate_llm_content_richness` (`llm_scraper.py` lines 356–397). -/
def calculate_llm_content_richness (c : LlmContent) : Nat :=
  let s1 := if c.title ≠ "" then (if strLen c.title > 10 then 15 else 10) else 0
  let s2 :=
    if c.headings ≠ [] then
      3 * c.headings.length +
        (if c.headings.countP (fun h => h.1 = 1) = 1 then 10 else 0)
    else 0
  let s3 :=
    if c.mainContent ≠ "" then
      (if wordCount c.mainContent > 100 then 15 else 0) +
        (if wordCount c.mainContent > 500 then 10 else 0) +
        (if wordCount c.mainContent > 1000 then 5 else 0)
    else 0
  let s4 := c.structuredData * 15
  let s5 := c.imagesWithContext * 2
  let s6 := c.listsContent * 3
  let s7 :=
    match c.metaDescription with
    | some t => if t ≠ "" then 8 else 0
    | none => 0
  min 100 (s1 + s2 + s3 + s4 + s5 + s6 + s7)

/-- `scrape_as_llm` (`llm_scraper.py` lines 9–158) on parsed markup. -/
def scrape_as_llm (d : Doc) : LlmContent :=
  let base : LlmContent :=
    { title := d.title,
      headings := d.headings.filter (fun h => h.2 ≠ ""),
      mainContent :=
        strJoin "\n\n" (d.mainParagraphs.filter (fun t => strLen t > 20)),
      structuredData := 0,
      imagesWithContext :=
        d.mainImgAlts.countP (fun a => strStrip (a.getD "") ≠ ""),
      listsContent :=
        d.mainListsItems.countP (fun items => items.filter (fun t => t ≠ "") ≠ []),
      metaDescription := d.metaDescription.map strStrip,
      llmRichnessScore := 0 }
  { base with llmRichnessScore := calculate_llm_content_richness base }

/-- The `except` branch of `scrape_as_llm` (lines 145–158): all fields empty,
richness 0.  Reached when the markup is `None`. -/
def scrapeErrorContent : LlmContent :=
  { title := "", headings := [], mainContent := "", structuredData := 0,
    imagesWithContext := 0, listsContent := 0, metaDescription := none,
    llmRichnessScore := 0 }

/-- `extract_llm_readable_content` (`llm_analysis.py` lines 213–307) on
parsed markup; the unmodelled `data` payload is dropped. -/
def extract_llm_readable_content (d : Doc) : CheckResult :=
  let easilyReadable : Nat := min 50
    (3 * d.headings.length + 2 * d.paragraphs.length + 2 * d.listsItems.length +
      2 * d.imgAlts.countP (fun a => a.getD "" ≠ "") + 5 * d.jsonldScripts.length)
  let challengingPenalty : Nat := min 20
    (2 * d.tables + 1 * d.forms +
      3 * d.imgAlts.countP (fun a => a.getD "" = ""))
  let inaccessiblePenalty : Nat := min 30
    (5 * d.canvas + 3 * d.media + 2 * d.onclick)
  let readiness : Int :=
    max 0 ((easilyReadable : Int) - challengingPenalty - inaccessiblePenalty)
  if 35 ≤ readiness then
    { passed := true,
      message := "High LLM content accessibility (score: " ++
        Nat.repr readiness.toNat ++ ")" }
  else if 20 ≤ readiness then
    { passed := true,
      message := "Moderate LLM content accessibility (score: " ++
        Nat.repr readiness.toNat ++ ")" }
  else
    { passed := false,
      message := "Low LLM content accessibility (score: " ++
        Nat.repr readiness.toNat ++ ")" }

/-! ## The scorer (`src/llm_seo/scoring.py`) -/

/-- `{'url', 'score', 'checks'}` of a scored page.  The order of `checks`
is the insertion order of the source's dict literal (`scoring.py` lines
85–105).  The `content_analysis` entry — derived metrics that feed only the
rendered report, never the score — is not modelled. -/
structure PageScoreResult where
  url : Url
  score : Nat
  checks : List (String × CheckResult)
  deriving DecidableEq, Repr

/-- The `llm_accessibility_analysis` entry of the checks dict
(`scoring.py` lines 88–92): `passed` is the literal `True`. -/
def llmAccessibilityCheck (c : LlmContent) : CheckResult :=
  { passed := true,
    message := "LLM can access " ++ Nat.repr c.headings.length ++
      " headings, " ++ Nat.repr (wordCount c.mainContent) ++
      " words of content" }

/-- The `llm_content_richness` entry of the checks dict (`scoring.py` lines
93–97). -/
def llmRichnessCheck (c : LlmContent) : CheckResult :=
  { passed := decide (50 ≤ c.llmRichnessScore),
    message := "Content richness score: " ++ Nat.repr c.llmRichnessScore ++
      "/100" }

/-- The scoring loop (`scoring.py` lines 122–130): each passed check
contributes 25 points when its name starts with `llm_`, 15 otherwise. -/
def checkScore (checks : List (String × CheckResult)) : Nat :=
  checks.foldl
    (fun score nc =>
      if nc.2.passed then
        score + (if strStarts nc.1 "llm_" then 25 else 15)
      else score)
    0

/-- `score_page(page_data)` (`scoring.py` lines 77–140).  The three LLM
analyses catch exceptions internally (returning their error dicts on a
`None` page body); the four markup checks of `checks.py` do not, so their
`TypeError` propagates out of `score_page` — hence the `Except`. -/
def score_page (rnet : RobotsNet) (p : PageRecord) :
    Except String PageScoreResult :=
  let llmContent : LlmContent :=
    match p.html with
    | some d => scrape_as_llm d
    | none => scrapeErrorContent
  let llmReadable : CheckResult :=
    match p.html with
    | some d => extract_llm_readable_content d
    | none =>
      { passed := false, message := "Error analyzing LLM content: " ++ noneLenMsg }
  let cAccess : CheckResult := llmAccessibilityCheck llmContent
  let cRich : CheckResult := llmRichnessCheck llmContent
  let cRobots : CheckResult := check_robots_txt_allows_crawling rnet p
  (check_meta_robots_allows_indexing p).bind fun cMeta =>
  (check_has_h1_tag p).bind fun cH1 =>
  (check_has_meta_description p).bind fun cDesc =>
  (check_images_have_alt_text p).bind fun cAlt =>
  let checks : List (String × CheckResult) :=
    [("llm_content_analysis", llmReadable),
     ("llm_accessibility_analysis", cAccess),
     ("llm_content_richness", cRich),
     ("robots_txt_allows_crawling", cRobots),
     ("meta_robots_allows_indexing", cMeta),
     ("has_h1_tag", cH1),
     ("has_meta_description", cDesc),
     ("images_have_alt_text", cAlt)]
  Except.ok { url := p.url, score := min 100 (checkScore checks), checks := checks }

/-- `round(total/num)` for Python's banker's rounding, computed on the exact
rational `total/num` (for the magnitudes at hand — scores at most 100 over at
most 50 pages — the float division is exact at every half-integer tie, so
this agrees with the source). -/
def pythonRoundDiv (total num : Nat) : Nat :=
  let q := total / num
  let r := total % num
  if 2 * r < num then q
  else if num < 2 * r then q + 1
  else if q % 2 = 0 then q else q + 1

/-- The outcome of `scrape_website_with_openai`: an opaque AI-service value
of which the scorer reads only the `success` flag. -/
structure OpenAiAnalysis where
  success : Bool
  deriving DecidableEq, Repr

/-- The aggregate dict built by `calculate_scores` (`scoring.py` lines
17–74).  The recommendation lists and the content-analysis averages — free
text and report-only metrics — are not modelled. -/
structure SiteResult where
  pages : List PageScoreResult
  site_score : Nat
  highAccessibility : Nat
  mediumAccessibility : Nat
  lowAccessibility : Nat
  openaiAnalysis : OpenAiAnalysis
  deriving DecidableEq, Repr

/-- The `for page_data in pages_data` loop of `calculate_scores`: score each
page in order, propagating the first exception. -/
def scorePages (rnet : RobotsNet) : List PageRecord →
    Except String (List PageScoreResult)
  | [] => Except.ok []
  | p :: ps =>
    (score_page rnet p).bind fun r =>
    (scorePages rnet ps).bind fun rs =>
    Except.ok (r :: rs)

/-- `calculate_scores(pages_data)`: scores every page via `score_page`
(propagating any exception), sets `site_score` to `round(total/num)` when at
least one page exists (it stays at its initial 0 otherwise), and buckets
pages by score (≥ 80 high, ≥ 50 medium, else low). -/
def calculate_scores (rnet : RobotsNet) (openai : OpenAiAnalysis)
    (pagesData : List PageRecord) : Except String SiteResult :=
  (scorePages rnet pagesData).bind fun pages =>
  Except.ok
    { pages := pages,
      site_score :=
        if pagesData.length = 0 then 0
        else pythonRoundDiv (pages.map (fun r => r.score)).sum pagesData.length,
      highAccessibility := pages.countP (fun r => 80 ≤ r.score),
      mediumAccessibility := pages.countP (fun r => 50 ≤ r.score ∧ r.score < 80),
      lowAccessibility := pages.countP (fun r => r.score < 50),
      openaiAnalysis := openai }

/-! ## The CLI (`src/llm_seo/cli.py`, command `audit`) -/

/-- Output format selector (`--format`). -/
inductive OutFormat where
  | report
  | json
  deriving DecidableEq, Repr

/-- The parsed command line of `audit`. -/
structure CliArgs where
  url : String
  depth : Nat
  output : Option String
  openaiReport : Bool
  openaiKey : Option String
  fmt : OutFormat
  deriving DecidableEq, Repr

/-- Result dict of `generate_report_with_openai` (external service call):
the CLI reads `success`, `error` and the report text. -/
structure OpenAiReportResult where
  success : Bool
  error : String
  report : String
  deriving DecidableEq, Repr

/-- An observable side effect of the CLI: a `click.echo` line or a file
write. -/
inductive Effect where
  | echo (line : String)
  | write (path : String) (content : String)
  deriving DecidableEq, Repr

/-- The CLI's collaborators: the crawler network, the robots.txt network,
URL parsing of the positional argument, the two OpenAI services, the
`OPENAI_API_KEY` environment variable, and the two report renderers
(`generate_unified_report` and `json.dumps`, whose text the verified
properties never inspect). -/
structure CliEnv where
  net : Net
  rnet : RobotsNet
  parseUrl : String → Url
  openaiScrape : OpenAiAnalysis
  openaiGen : OpenAiReportResult
  getenvOpenAiKey : Option String
  renderUnified : SiteResult → Option OpenAiReportResult → String
  renderJson : SiteResult → Option OpenAiReportResult → String

/-- Lines 54–74 of `cli.py`: render and emit the report. -/
def emitReport (env : CliEnv) (a : CliArgs) (results : SiteResult)
    (openaiResult : Option OpenAiReportResult) (effs : List Effect) :
    List Effect :=
  match a.fmt with
  | OutFormat.report =>
    match a.output with
    | some path =>
      effs ++ [Effect.write path (env.renderUnified results openaiResult),
        Effect.echo ("Report saved to " ++ path)]
    | none =>
      effs ++ [Effect.echo (env.renderUnified results openaiResult)]
  | OutFormat.json =>
    match a.output with
    | some path =>
      effs ++ [Effect.write path (env.renderJson results openaiResult),
        Effect.echo ("JSON report saved to " ++ path)]
    | none =>
      effs ++ [Effect.echo (env.renderJson results openaiResult)]

/-- The `audit` command (`cli.py` lines 19–74), returning its effect trace.
A scoring exception propagates (`Except.error`); otherwise the trace lists
every echoed line and file write in order. -/
def audit (env : CliEnv) (a : CliArgs) : Except String (List Effect) :=
  let effs0 : List Effect :=
    [Effect.echo ("Auditing " ++ a.url ++ " with depth " ++ Nat.repr a.depth ++ "...")]
  let pagesData := crawl_site env.net (env.parseUrl a.url) a.depth
  (calculate_scores env.rnet env.openaiScrape pagesData).bind fun results =>
  if a.openaiReport then
    if a.openaiKey = none ∧ env.getenvOpenAiKey = none then
      -- missing credential: print the error and `return` — no report is
      -- rendered or written
      Except.ok (effs0 ++
        [Effect.echo "Error: OpenAI API key required. Set OPENAI_API_KEY environment variable or use --openai-key option."])
    else
      let effs1 := effs0 ++ [Effect.echo "Generating polished report with OpenAI..."]
      let gen := env.openaiGen
      if gen.success = false then
        Except.ok (emitReport env a results none
          (effs1 ++ [Effect.echo ("Failed to generate OpenAI report: " ++ gen.error)]))
      else
        Except.ok (emitReport env a results (some gen) effs1)
  else
    Except.ok (emitReport env a results none effs0)

deriving instance DecidableEq for Except

/-! ## Concrete fixtures -/

/-- A page body with no content at all. -/
def emptyDoc : Doc :=
  { title := "", metaRobots := none, metaDescription := none, headings := [],
    paragraphs := [], mainParagraphs := [], listsItems := [], mainListsItems := [],
    imgAlts := [], mainImgAlts := [], jsonldScripts := [], tables := 0, forms := 0,
    iframes := 0, canvas := 0, svg := 0, media := 0, onclick := 0 }

def seedUrl : Url :=
  { scheme := "https", host := "example.com", path := "/", query := "", fragment := "" }

def pageUrl : Url :=
  { scheme := "https", host := "example.com", path := "/page", query := "", fragment := "" }

def pageFragUrl : Url :=
  { scheme := "https", host := "example.com", path := "/page", query := "",
    fragment := "section" }

def otherHostUrl : Url :=
  { scheme := "https", host := "other.com", path := "/", query := "", fragment := "" }

def bUrl : Url :=
  { scheme := "https", host := "example.com", path := "/b", query := "", fragment := "" }

/-- A successful fetch of an empty page carrying the given links. -/
def okFetch (links : List Url) : Fetched :=
  { status := 200, doc := emptyDoc, links := links }

/-- Every request raises. -/
def netAllFail : Net := fun _ => none

/-- The seed page links to the fragment/plain pair and to a cross-host page;
everything else is empty. -/
def netDedup : Net := fun u =>
  if u = seedUrl then some (okFetch [pageFragUrl, pageUrl, otherHostUrl])
  else some (okFetch [])

/-- The seed page links to `/page` (whose fetch raises) and `/b` (which
succeeds). -/
def netMidFail : Net := fun u =>
  if u = seedUrl then some (okFetch [pageUrl, bUrl])
  else if u = pageUrl then none
  else some (okFetch [])

/-- robots.txt transport that raises. -/
def rnetFail : RobotsNet := fun _ => none

/-- A page record with no markup (the spec's failed-fetch record shape). -/
def noHtmlPage : PageRecord :=
  { url := pageUrl, html := none, statusCode := none,
    error := some "Connection error", depth := 0 }

/-- The empty page fetched successfully at the seed. -/
def emptyPage : PageRecord :=
  { url := seedUrl, html := some emptyDoc, statusCode := some 200,
    error := none, depth := 0 }


/-! ## Characterization lemmas -/

/-- The checks dict produced by `score_page` on a page whose markup parsed
to `d`, in insertion order. -/
def pageChecks (rnet : RobotsNet) (p : PageRecord) (d : Doc) :
    List (String × CheckResult) :=
  [("llm_content_analysis", extract_llm_readable_content d),
   ("llm_accessibility_analysis", llmAccessibilityCheck (scrape_as_llm d)),
   ("llm_content_richness", llmRichnessCheck (scrape_as_llm d)),
   ("robots_txt_allows_crawling", check_robots_txt_allows_crawling rnet p),
   ("meta_robots_allows_indexing", metaRobotsVerdict d),
   ("has_h1_tag", h1Verdict d),
   ("has_meta_description", metaDescriptionVerdict d),
   ("images_have_alt_text", altTextVerdict d)]

theorem score_page_none (rnet : RobotsNet) (p : PageRecord)
    (h : p.html = none) : score_page rnet p = Except.error noneLenMsg := by
  simp [score_page, check_meta_robots_allows_indexing, h, Except.bind]

theorem score_page_some (rnet : RobotsNet) (p : PageRecord) (d : Doc)
    (h : p.html = some d) :
    score_page rnet p =
      Except.ok
        { url := p.url, score := min 100 (checkScore (pageChecks rnet p d)),
          checks := pageChecks rnet p d } := by
  simp [score_page, check_meta_robots_allows_indexing, check_has_h1_tag,
    check_has_meta_description, check_images_have_alt_text, h, Except.bind,
    pageChecks]

/-- Per-entry contribution to the scoring loop. -/
def checkPoints (nc : String × CheckResult) : Nat :=
  if nc.2.passed then (if strStarts nc.1 "llm_" then 25 else 15) else 0

theorem checkScore_foldl_shift (l : List (String × CheckResult)) :
    ∀ a : Nat,
      l.foldl
        (fun score nc =>
          if nc.2.passed then
            score + (if strStarts nc.1 "llm_" then 25 else 15)
          else score) a =
      a + checkScore l := by
  induction l with
  | nil => intro a; simp [checkScore]
  | cons x xs ih =>
    intro a
    simp only [checkScore, List.foldl_cons]
    rw [ih, ih]
    rcases hx : x.2.passed <;> simp [hx] <;> omega

theorem checkScore_cons (x : String × CheckResult)
    (l : List (String × CheckResult)) :
    checkScore (x :: l) = checkPoints x + checkScore l := by
  simp only [checkScore, List.foldl_cons]
  rw [checkScore_foldl_shift]
  rcases hx : x.2.passed <;> simp [checkPoints, hx, checkScore]

theorem checkScore_split (l : List (String × CheckResult)) :
    checkScore l =
      25 * l.countP (fun nc => nc.2.passed && strStarts nc.1 "llm_") +
      15 * l.countP (fun nc => nc.2.passed && !(strStarts nc.1 "llm_")) := by
  induction l with
  | nil => simp [checkScore]
  | cons x xs ih =>
    rw [checkScore_cons, ih]
    simp only [List.countP_cons]
    rcases hp : x.2.passed <;> rcases hl : strStarts x.1 "llm_" <;>
      simp [checkPoints, hp, hl] <;> ring

theorem scorePages_length (rnet : RobotsNet) :
    ∀ (ps : List PageRecord) (res : List PageScoreResult),
      scorePages rnet ps = Except.ok res → res.length = ps.length := by
  intro ps
  induction ps with
  | nil => intro res h; simp [scorePages] at h; simp [← h]
  | cons p ps ih =>
    intro res h
    simp only [scorePages] at h
    cases h1 : score_page rnet p with
    | error e => rw [h1] at h; simp [Except.bind] at h
    | ok r =>
      rw [h1] at h
      cases h2 : scorePages rnet ps with
      | error e => rw [h2] at h; simp [Except.bind] at h
      | ok rs =>
        rw [h2] at h
        simp [Except.bind] at h
        rw [← h]
        simp [ih rs h2]

theorem nodup_append_single {α : Type} [DecidableEq α] (l : List α) (x : α)
    (h : l.Nodup) (hx : x ∉ l) : (l ++ [x]).Nodup := by
  simp [List.nodup_append, h, hx]

theorem crawlLoop_pages_le (net : Net) (maxDepth : Nat)
    (q : List (Url × Nat)) (visited : List Url) (pages : List PageRecord)
    (log : List Url) (hs : pages.length ≤ 50) :
    (crawlLoop net maxDepth q visited pages log).1.length ≤ 50 := by
  induction q, visited, pages, log using crawlLoop.induct net maxDepth with
  | case1 visited pages log => simpa [crawlLoop] using hs
  | case2 url depth rest visited pages log h50 =>
    simp only [crawlLoop, dif_pos h50]
    exact hs
  | case3 url depth rest visited pages log h50 hcond ih =>
    simp only [crawlLoop, dif_neg h50, if_pos hcond]
    exact ih hs
  | case4 url depth rest visited pages log h50 hcond hnet ih =>
    simp only [crawlLoop, dif_neg h50, if_neg hcond, hnet]
    exact ih hs
  | case5 url depth rest visited pages log h50 hcond f hnet ih =>
    simp only [crawlLoop, dif_neg h50, if_neg hcond, hnet]
    apply ih
    simp
    omega

/-- Combined structural invariant of the crawl loop: every enqueued URL and
every fetched URL stays on the seed host, fetched URLs are fragment-free, and
every collected page record is a success record (markup present, no error)
on the seed host. -/
theorem crawlLoop_records (net : Net) (maxDepth : Nat) (h0 : String) :
    ∀ (q : List (Url × Nat)) (visited : List Url) (pages : List PageRecord)
      (log : List Url),
      (∀ ud ∈ q, (ud.1 : Url).host = h0) →
      (∀ p ∈ pages, p.url.host = h0 ∧ p.error = none ∧ p.html.isSome = true) →
      (∀ u ∈ log, u.host = h0 ∧ u.fragment = "") →
      (∀ p ∈ (crawlLoop net maxDepth q visited pages log).1,
        p.url.host = h0 ∧ p.error = none ∧ p.html.isSome = true) ∧
      (∀ u ∈ (crawlLoop net maxDepth q visited pages log).2,
        u.host = h0 ∧ u.fragment = "") := by
  intro q visited pages log
  induction q, visited, pages, log using crawlLoop.induct net maxDepth with
  | case1 visited pages log =>
    intro _ hpages hlog
    simpa [crawlLoop] using ⟨hpages, hlog⟩
  | case2 url depth rest visited pages log h50 =>
    intro _ hpages hlog
    simp only [crawlLoop, dif_pos h50]
    exact ⟨hpages, hlog⟩
  | case3 url depth rest visited pages log h50 hcond ih =>
    intro hq hpages hlog
    simp only [crawlLoop, dif_neg h50, if_pos hcond]
    exact ih (fun ud hud => hq ud (List.mem_cons_of_mem _ hud)) hpages hlog
  | case4 url depth rest visited pages log h50 hcond hnet ih =>
    intro hq hpages hlog
    simp only [crawlLoop, dif_neg h50, if_neg hcond, hnet]
    apply ih (fun ud hud => hq ud (List.mem_cons_of_mem _ hud)) hpages
    intro u hu
    rcases List.mem_append.mp hu with h | h
    · exact hlog u h
    · simp only [List.mem_singleton] at h
      subst h
      exact ⟨hq (url, depth) (List.mem_cons_self _ _), urldefrag_fragment url⟩
  | case5 url depth rest visited pages log h50 hcond f hnet ih =>
    intro hq hpages hlog
    simp only [crawlLoop, dif_neg h50, if_neg hcond, hnet]
    have hhost : (urldefrag url).host = h0 :=
      hq (url, depth) (List.mem_cons_self _ _)
    apply ih
    · intro ud hud
      rcases List.mem_append.mp hud with h | h
      · exact hq ud (List.mem_cons_of_mem _ h)
      · -- an enqueued link: the filter keeps only URLs on the page's host
        simp only [enqueueLinks] at h
        by_cases hd : depth < maxDepth
        · rw [if_pos hd] at h
          rcases List.mem_map.mp h with ⟨l, hl, rfl⟩
          rcases List.mem_filter.mp hl with ⟨_, hlprop⟩
          have hconj := of_decide_eq_true hlprop
          exact hconj.1.trans hhost
        · rw [if_neg hd] at h
          simp at h
    · intro p hp
      rcases List.mem_append.mp hp with h | h
      · exact hpages p h
      · simp only [List.mem_singleton] at h
        subst h
        exact ⟨hhost, rfl, rfl⟩
    · intro u hu
      rcases List.mem_append.mp hu with h | h
      · exact hlog u h
      · simp only [List.mem_singleton] at h
        subst h
        exact ⟨hhost, urldefrag_fragment url⟩

/-- Each URL is fetched at most once: every fetched URL is recorded in
`visited` before its fetch, and a URL already in `visited` is skipped, so the
fetch trace has no duplicates. -/
theorem crawlLoop_log_nodup (net : Net) (maxDepth : Nat) :
    ∀ (q : List (Url × Nat)) (visited : List Url) (pages : List PageRecord)
      (log : List Url),
      (∀ u ∈ log, u ∈ visited) → log.Nodup →
      (crawlLoop net maxDepth q visited pages log).2.Nodup := by
  intro q visited pages log
  induction q, visited, pages, log using crawlLoop.induct net maxDepth with
  | case1 visited pages log =>
    intro _ hnd
    simpa [crawlLoop] using hnd
  | case2 url depth rest visited pages log h50 =>
    intro _ hnd
    simp only [crawlLoop, dif_pos h50]
    exact hnd
  | case3 url depth rest visited pages log h50 hcond ih =>
    intro hsub hnd
    simp only [crawlLoop, dif_neg h50, if_pos hcond]
    exact ih hsub hnd
  | case4 url depth rest visited pages log h50 hcond hnet ih =>
    intro hsub hnd
    simp only [crawlLoop, dif_neg h50, if_neg hcond, hnet]
    apply ih
    · intro u hu
      rcases List.mem_append.mp hu with h | h
      · exact List.mem_cons_of_mem _ (hsub u h)
      · simp only [List.mem_singleton] at h
        simp [h]
    · refine nodup_append_single _ _ hnd ?_
      intro hmem
      exact (not_or.mp hcond).1 (hsub _ hmem)
  | case5 url depth rest visited pages log h50 hcond f hnet ih =>
    intro hsub hnd
    simp only [crawlLoop, dif_neg h50, if_neg hcond, hnet]
    apply ih
    · intro u hu
      rcases List.mem_append.mp hu with h | h
      · exact List.mem_cons_of_mem _ (hsub u h)
      · simp only [List.mem_singleton] at h
        simp [h]
    · refine nodup_append_single _ _ hnd ?_
      intro hmem
      exact (not_or.mp hcond).1 (hsub _ hmem)

/-- The one page record collected by the dedup crawl for `/page`. -/
def pageP : PageRecord :=
  { url := pageUrl, html := some emptyDoc, statusCode := some 200,
    error := none, depth := 1 }

/-- The one page record collected by the mid-failure crawl for `/b`. -/
def pageB : PageRecord :=
  { url := bUrl, html := some emptyDoc, statusCode := some 200,
    error := none, depth := 1 }

theorem crawl_netAllFail :
    crawlTrace netAllFail seedUrl 1 = ([], [seedUrl]) := by
  simp [crawlTrace, crawlLoop, netAllFail, urldefrag, seedUrl]

theorem crawl_netDedup :
    crawlTrace netDedup seedUrl 1 = ([emptyPage, pageP], [seedUrl, pageUrl]) := by
  simp [crawlTrace, crawlLoop, netDedup, urldefrag, seedUrl, pageUrl,
    pageFragUrl, otherHostUrl, okFetch, enqueueLinks, mkPage, emptyPage,
    pageP, emptyDoc]

theorem crawl_netMidFail :
    crawlTrace netMidFail seedUrl 1 =
      ([emptyPage, pageB], [seedUrl, pageUrl, bUrl]) := by
  simp [crawlTrace, crawlLoop, netMidFail, urldefrag, seedUrl, pageUrl, bUrl,
    okFetch, enqueueLinks, mkPage, emptyPage, pageB, emptyDoc]

/-! ## Claim theorems -/

/-- C1, counterexample: with a network on which every fetch fails, `crawl_site`
returns no page record at all for the failed seed URL — the claim's promised
error record (error set, html absent, reported with score 0) does not exist. -/
theorem c1_counterexample :
    netAllFail (urldefrag seedUrl) = none ∧
    crawl_site netAllFail seedUrl 1 = [] := by
  refine ⟨rfl, ?_⟩
  show (crawlTrace netAllFail seedUrl 1).1 = []
  rw [crawl_netAllFail]

/-- C1 (amended): a URL whose fetch fails produces **no** `PageRecord` — every
record `crawl_site` returns is a success record with `html` present and
`error` absent — and the failure does not abort the crawl: in the concrete
run `netMidFail`, the seed links to `/page` (whose fetch raises) and `/b`;
the crawl skips `/page` and still collects `/b` from the remaining queue. -/
theorem c1_failed_fetch_skipped :
    (∀ (net : Net) (start : Url) (maxDepth : Nat),
      ∀ p ∈ crawl_site net start maxDepth,
        p.error = none ∧ p.html.isSome = true) ∧
    crawl_site netMidFail seedUrl 1 = [emptyPage, pageB] := by
  constructor
  · intro net start maxDepth p hp
    have h := crawlLoop_records net maxDepth start.host [(start, 0)] [] [] []
      (by intro ud hud; simp at hud; simp [hud]) (by simp) (by simp)
    exact ⟨(h.1 p hp).2.1, (h.1 p hp).2.2⟩
  · show (crawlTrace netMidFail seedUrl 1).1 = _
    rw [crawl_netMidFail]

/-- C1, witness for the amended claim at a concrete crawl. -/
theorem c1_witness :
    emptyPage ∈ crawl_site netMidFail seedUrl 1 ∧
    emptyPage.error = none ∧ emptyPage.html.isSome = true := by
  have hmem : emptyPage ∈ crawl_site netMidFail seedUrl 1 := by
    show emptyPage ∈ (crawlTrace netMidFail seedUrl 1).1
    rw [crawl_netMidFail]
    simp
  exact ⟨hmem, c1_failed_fetch_skipped.1 netMidFail seedUrl 1 emptyPage hmem⟩

/-- C2, counterexample: on a page with no html, the meta-robots check's
`TypeError` propagates out of `score_page` (no fail-safe `CheckResult` is
produced), and it aborts the scoring of the whole batch even though the
second page of the batch is fine. -/
theorem c2_counterexample :
    score_page rnetFail noHtmlPage = Except.error noneLenMsg ∧
    calculate_scores rnetFail { success := false } [noHtmlPage, emptyPage] =
      Except.error noneLenMsg := by
  exact ⟨by decide, by decide⟩

/-- C2 (amended): the individual checks are **not** wrapped by `score_page`:
an internal exception inside a check — here the `TypeError` that
`check_meta_robots_allows_indexing` raises on a page with no html — escapes
the check and propagates out of `score_page`, aborting the scoring pass. -/
theorem c2_checks_unwrapped (rnet : RobotsNet) (p : PageRecord)
    (h : p.html = none) :
    check_meta_robots_allows_indexing p = Except.error noneLenMsg ∧
    score_page rnet p = Except.error noneLenMsg :=
  ⟨by simp [check_meta_robots_allows_indexing, h],
   score_page_none rnet p h⟩

/-- C2, witness for the amended claim at a concrete page. -/
theorem c2_witness :
    noHtmlPage.html = none ∧
    check_meta_robots_allows_indexing noHtmlPage = Except.error noneLenMsg :=
  ⟨rfl, (c2_checks_unwrapped rnetFail noHtmlPage rfl).1⟩

/-- C3: whenever `score_page` returns, the score is 25 points per passed
check whose name starts with `llm_` plus 15 points per other passed check,
capped at 100 — hence always within [0, 100]. -/
theorem c3_score_rule (rnet : RobotsNet) (p : PageRecord) (r : PageScoreResult)
    (h : score_page rnet p = Except.ok r) :
    r.score =
      min 100
        (25 * r.checks.countP (fun nc => nc.2.passed && strStarts nc.1 "llm_") +
         15 * r.checks.countP (fun nc => nc.2.passed && !(strStarts nc.1 "llm_"))) ∧
    r.score ≤ 100 := by
  cases hh : p.html with
  | none =>
    rw [score_page_none rnet p hh] at h
    simp at h
  | some d =>
    rw [score_page_some rnet p d hh] at h
    have hr := Except.ok.inj h
    subst hr
    refine ⟨?_, Nat.min_le_left _ _⟩
    simp only [checkScore_split]

/-- C3, witness at a concrete page. -/
theorem c3_witness :
    ∃ r, score_page rnetFail emptyPage = Except.ok r ∧
      r.score =
        min 100
          (25 * r.checks.countP (fun nc => nc.2.passed && strStarts nc.1 "llm_") +
           15 * r.checks.countP (fun nc => nc.2.passed && !(strStarts nc.1 "llm_"))) ∧
      r.score ≤ 100 := by
  have hok : (score_page rnetFail emptyPage).isOk = true := by decide
  cases h : score_page rnetFail emptyPage with
  | error e =>
    rw [h] at hok
    simp [Except.isOk, Except.toBool] at hok
  | ok r => exact ⟨r, rfl, c3_score_rule rnetFail emptyPage r h⟩

/-- C4: regardless of the network, the seed and the depth bound — hence for a
link graph of any size — `crawl_site` returns at most 50 page records: the
`while` guard stops collecting once 50 pages have been gathered. -/
theorem c4_crawl_page_cap (net : Net) (start : Url) (maxDepth : Nat) :
    (crawl_site net start maxDepth).length ≤ 50 :=
  crawlLoop_pages_le net maxDepth [(start, 0)] [] [] [] (by simp)

/-- C5: every URL `crawl_site` fetches (the trace of `requests.get` calls)
and every page record it returns stays on the seed URL's host — link
discovery keeps only URLs whose host equals the current page's host, so
cross-host links are discarded and no cross-domain page is ever fetched or
returned. -/
theorem c5_same_host (net : Net) (start : Url) (maxDepth : Nat) :
    (∀ u ∈ (crawlTrace net start maxDepth).2, u.host = start.host) ∧
    (∀ p ∈ crawl_site net start maxDepth, p.url.host = start.host) := by
  have h := crawlLoop_records net maxDepth start.host [(start, 0)] [] [] []
    (by intro ud hud; simp at hud; simp [hud]) (by simp) (by simp)
  exact ⟨fun u hu => (h.2 u hu).1, fun p hp => (h.1 p hp).1⟩

/-- C5, witness at a concrete crawl whose fetch trace is non-empty. -/
theorem c5_witness :
    pageUrl ∈ (crawlTrace netDedup seedUrl 1).2 ∧
    pageUrl.host = seedUrl.host := by
  have hmem : pageUrl ∈ (crawlTrace netDedup seedUrl 1).2 := by
    rw [crawl_netDedup]
    simp
  exact ⟨hmem, (c5_same_host netDedup seedUrl 1).1 pageUrl hmem⟩

/-- C6: `calculate_scores []` yields `site_score = 0` with an empty page
sequence; on any input, the number of page results equals the number of
input pages and `site_score` is the (banker's-)rounded arithmetic mean of
the per-page scores; `round(240/3) = 80` covers the spec's 80/60/100
example. -/
theorem c6_site_score_mean (rnet : RobotsNet) (oa : OpenAiAnalysis)
    (ps : List PageRecord) :
    calculate_scores rnet oa [] =
      Except.ok
        { pages := [], site_score := 0, highAccessibility := 0,
          mediumAccessibility := 0, lowAccessibility := 0,
          openaiAnalysis := oa } ∧
    (calculate_scores rnet oa ps).map (fun res => res.pages.length) =
      (calculate_scores rnet oa ps).map (fun _ => ps.length) ∧
    (calculate_scores rnet oa ps).map (fun res => res.site_score) =
      (calculate_scores rnet oa ps).map (fun res =>
        if res.pages.length = 0 then 0
        else
          pythonRoundDiv ((res.pages.map (fun r => r.score)).sum)
            res.pages.length) ∧
    pythonRoundDiv (80 + 60 + 100) 3 = 80 := by
  refine ⟨by simp [calculate_scores, scorePages, Except.bind], ?_, ?_, by decide⟩
  · cases h : scorePages rnet ps with
    | error e => simp [calculate_scores, h, Except.bind, Except.map]
    | ok pages =>
      have hlen := scorePages_length rnet ps pages h
      simp [calculate_scores, h, Except.bind, Except.map, hlen]
  · cases h : scorePages rnet ps with
    | error e => simp [calculate_scores, h, Except.bind, Except.map]
    | ok pages =>
      have hlen := scorePages_length rnet ps pages h
      simp [calculate_scores, h, Except.bind, Except.map, hlen]

/-- robots.txt transport fixtures for the robots-policy claim. -/
def rnet404 : RobotsNet := fun _ => some { status := 404, text := "" }

def rnetBlock : RobotsNet :=
  fun _ => some { status := 200, text := "User-agent: *\nDisallow: /" }

/-- C7: `check_robots_txt_allows_crawling` passes on a network error and on
any non-200 response (404 included); it fails exactly when the 200 response's
wildcard group collected a `Disallow: /` and the file has no `Allow` lines —
in particular on the body `"User-agent: *\nDisallow: /"`. -/
theorem c7_robots_policy (rnet : RobotsNet) (p : PageRecord) :
    (rnet (robotsUrl p.url) = none →
      (check_robots_txt_allows_crawling rnet p).passed = true) ∧
    (∀ s : RawResp, rnet (robotsUrl p.url) = some s → s.status ≠ 200 →
      (check_robots_txt_allows_crawling rnet p).passed = true) ∧
    ((check_robots_txt_allows_crawling rnet p).passed = false ↔
      ∃ s : RawResp, rnet (robotsUrl p.url) = some s ∧ s.status = 200 ∧
        "/" ∈ wildcardDisallows (robotsLines (strLower s.text)) ∧
        (robotsLines (strLower s.text)).filter
          (fun l => strStarts l "allow:") = []) ∧
    (check_robots_txt_allows_crawling rnetBlock p).passed = false := by
  refine ⟨?_, ?_, ?_, by rfl⟩
  · intro hr
    simp [check_robots_txt_allows_crawling, hr, robotsVerdict]
  · intro s hr h200
    simp only [check_robots_txt_allows_crawling, hr, robotsVerdict]
    by_cases h404 : s.status = 404
    · rw [if_pos h404]
    · rw [if_neg h404, if_pos h200]
  · cases hr : rnet (robotsUrl p.url) with
    | none =>
      refine iff_of_false (by simp [check_robots_txt_allows_crawling, hr, robotsVerdict]) ?_
      rintro ⟨s', hs', _⟩
      exact Option.noConfusion hs'
    | some s =>
      simp only [check_robots_txt_allows_crawling, hr, robotsVerdict]
      by_cases h404 : s.status = 404
      · rw [if_pos h404]
        refine iff_of_false (by simp) ?_
        rintro ⟨s', hs', h200', _⟩
        have hss : s = s' := Option.some.inj hs'
        rw [← hss] at h200'
        rw [h404] at h200'
        exact absurd h200' (by decide)
      · by_cases h200 : s.status = 200
        · rw [if_neg h404, if_neg (by simp [h200])]
          by_cases hb :
              "/" ∈ wildcardDisallows (robotsLines (strLower s.text)) ∧
              (robotsLines (strLower s.text)).filter
                (fun l => strStarts l "allow:") = []
          · rw [if_pos hb]
            exact iff_of_true rfl ⟨s, rfl, h200, hb.1, hb.2⟩
          · rw [if_neg hb]
            refine iff_of_false (by simp) ?_
            rintro ⟨s', hs', h200', hmem, hfil⟩
            have hss : s = s' := Option.some.inj hs'
            rw [← hss] at hmem hfil
            exact hb ⟨hmem, hfil⟩
        · rw [if_neg h404, if_pos h200]
          refine iff_of_false (by simp) ?_
          rintro ⟨s', hs', h200', _⟩
          have hss : s = s' := Option.some.inj hs'
          rw [← hss] at h200'
          exact h200 h200'

/-- C7, witness: the three policy outcomes at concrete transports. -/
theorem c7_witness :
    (check_robots_txt_allows_crawling rnetFail emptyPage).passed = true ∧
    (check_robots_txt_allows_crawling rnet404 emptyPage).passed = true ∧
    (check_robots_txt_allows_crawling rnetBlock emptyPage).passed = false :=
  ⟨(c7_robots_policy rnetFail emptyPage).1 rfl,
   (c7_robots_policy rnet404 emptyPage).2.1 { status := 404, text := "" } rfl
     (by decide),
   (c7_robots_policy rnet404 emptyPage).2.2.2⟩

/-- C8: the crawler deduplicates by fragment-stripped URL: the fetch trace of
any crawl is duplicate-free and contains only fragment-free URLs, while
`urldefrag` preserves path and query; `https://example.com/page#section` and
`https://example.com/page` normalize to the same visited entry, and in the
concrete crawl whose seed links to both, only one fetch of `/page` occurs. -/
theorem c8_dedup :
    (∀ (net : Net) (start : Url) (maxDepth : Nat),
      (crawlTrace net start maxDepth).2.Nodup ∧
      ∀ u ∈ (crawlTrace net start maxDepth).2, u.fragment = "") ∧
    (∀ u : Url, (urldefrag u).path = u.path ∧ (urldefrag u).query = u.query) ∧
    urldefrag pageFragUrl = urldefrag pageUrl ∧
    (crawlTrace netDedup seedUrl 1).2 = [seedUrl, pageUrl] := by
  refine ⟨?_, fun u => ⟨rfl, rfl⟩, rfl, congrArg Prod.snd crawl_netDedup⟩
  intro net start maxDepth
  constructor
  · exact crawlLoop_log_nodup net maxDepth [(start, 0)] [] [] []
      (by simp) (by simp)
  · intro u hu
    have h := crawlLoop_records net maxDepth start.host [(start, 0)] [] [] []
      (by intro ud hud; simp at hud; simp [hud]) (by simp) (by simp)
    exact (h.2 u hu).2

/-- C8, witness at the concrete crawl with a non-empty fetch trace. -/
theorem c8_witness :
    seedUrl ∈ (crawlTrace netDedup seedUrl 1).2 ∧ seedUrl.fragment = "" := by
  have hmem : seedUrl ∈ (crawlTrace netDedup seedUrl 1).2 := by
    rw [crawl_netDedup]
    simp
  exact ⟨hmem, (c8_dedup.1 netDedup seedUrl 1).2 seedUrl hmem⟩

/-- C10: every page that `score_page` scores without raising gets at least
25 points — the `llm_accessibility_analysis` entry is constructed with
`passed = True` unconditionally and, as an `llm_`-prefixed check, contributes
25 points — so no scored page receives a score of 0. -/
theorem c10_llm_floor (rnet : RobotsNet) (p : PageRecord) (r : PageScoreResult)
    (h : score_page rnet p = Except.ok r) :
    25 ≤ r.score ∧ r.score ≠ 0 ∧
    ∃ c, ("llm_accessibility_analysis", c) ∈ r.checks ∧ c.passed = true := by
  cases hh : p.html with
  | none =>
    rw [score_page_none rnet p hh] at h
    simp at h
  | some d =>
    rw [score_page_some rnet p d hh] at h
    have hr := Except.ok.inj h
    subst hr
    have hsh :
        pageChecks rnet p d =
          ("llm_content_analysis", extract_llm_readable_content d) ::
            ("llm_accessibility_analysis", llmAccessibilityCheck (scrape_as_llm d)) ::
            ("llm_content_richness", llmRichnessCheck (scrape_as_llm d)) ::
            ("robots_txt_allows_crawling", check_robots_txt_allows_crawling rnet p) ::
            ("meta_robots_allows_indexing", metaRobotsVerdict d) ::
            ("has_h1_tag", h1Verdict d) ::
            ("has_meta_description", metaDescriptionVerdict d) ::
            [("images_have_alt_text", altTextVerdict d)] := rfl
    have hst : strStarts "llm_accessibility_analysis" "llm_" = true := by decide
    have h25 :
        checkPoints
          ("llm_accessibility_analysis", llmAccessibilityCheck (scrape_as_llm d)) =
          25 := by
      simp [checkPoints, llmAccessibilityCheck, hst]
    have hscore : 25 ≤ min 100 (checkScore (pageChecks rnet p d)) := by
      rw [hsh, checkScore_cons, checkScore_cons, h25]
      refine le_min (by decide) ?_
      omega
    refine ⟨hscore, ?_, ?_⟩
    · show min 100 (checkScore (pageChecks rnet p d)) ≠ 0
      intro h0
      rw [h0] at hscore
      exact absurd hscore (by decide)
    · refine ⟨llmAccessibilityCheck (scrape_as_llm d), ?_, rfl⟩
      show ("llm_accessibility_analysis", llmAccessibilityCheck (scrape_as_llm d)) ∈
        pageChecks rnet p d
      rw [hsh]
      exact List.mem_cons_of_mem _ (List.mem_cons_self _ _)

/-- C10, witness at a concrete page. -/
theorem c10_witness :
    ∃ r, score_page rnetFail emptyPage = Except.ok r ∧ 25 ≤ r.score ∧
      r.score ≠ 0 := by
  have hok : (score_page rnetFail emptyPage).isOk = true := by decide
  cases h : score_page rnetFail emptyPage with
  | error e =>
    rw [h] at hok
    simp [Except.isOk, Except.toBool] at hok
  | ok r =>
    have hc := c10_llm_floor rnetFail emptyPage r h
    exact ⟨r, rfl, hc.1, hc.2.1⟩

/-- CLI environment with no `OPENAI_API_KEY` configured; the unified report,
were it produced, would be the text `"REPORT"`. -/
def cliEnvNoKey : CliEnv :=
  { net := netAllFail, rnet := rnetFail, parseUrl := fun _ => seedUrl,
    openaiScrape := { success := false },
    openaiGen := { success := false, error := "", report := "" },
    getenvOpenAiKey := none,
    renderUnified := fun _ _ => "REPORT",
    renderJson := fun _ _ => "JSON" }

/-- `audit https://example.com --openai-report` with no key anywhere. -/
def cliArgsNoKey : CliArgs :=
  { url := "https://example.com", depth := 1, output := none,
    openaiReport := true, openaiKey := none, fmt := OutFormat.report }

def apiKeyErrorLine : String :=
  "Error: OpenAI API key required. Set OPENAI_API_KEY environment variable or use --openai-key option."

theorem audit_noKey_eval :
    audit cliEnvNoKey cliArgsNoKey =
      Except.ok
        [Effect.echo "Auditing https://example.com with depth 1...",
         Effect.echo apiKeyErrorLine] := by
  have hcrawl :
      crawl_site cliEnvNoKey.net (cliEnvNoKey.parseUrl cliArgsNoKey.url)
        cliArgsNoKey.depth = [] :=
    congrArg Prod.fst crawl_netAllFail
  simp only [audit]
  rw [hcrawl]
  decide

/-- C9, counterexample: invoked with the AI-report flag and no credential,
`audit` echoes the key error and returns — the trace contains neither the
rendered report (`"REPORT"`) nor any file write, so the audit does *not*
continue to produce the report as the claim states. -/
theorem c9_counterexample :
    audit cliEnvNoKey cliArgsNoKey =
      Except.ok
        [Effect.echo "Auditing https://example.com with depth 1...",
         Effect.echo apiKeyErrorLine] ∧
    Effect.echo "REPORT" ∉
      [Effect.echo "Auditing https://example.com with depth 1...",
       Effect.echo apiKeyErrorLine] :=
  ⟨audit_noKey_eval, by decide⟩

/-- C9 (amended): when the AI-report flag is set and no credential is
configured (neither `--openai-key` nor the environment variable), the CLI
prints the key error and returns immediately: its whole effect trace is the
auditing banner plus the error line, with no report printed or written.
(Only when a key is present but generation fails does it continue without
the feature.) -/
theorem c9_missing_key_aborts (env : CliEnv) (a : CliArgs) (effs : List Effect)
    (h1 : a.openaiReport = true) (h2 : a.openaiKey = none)
    (h3 : env.getenvOpenAiKey = none) (h : audit env a = Except.ok effs) :
    effs =
      [Effect.echo ("Auditing " ++ a.url ++ " with depth " ++
        Nat.repr a.depth ++ "..."),
       Effect.echo apiKeyErrorLine] := by
  simp only [audit] at h
  cases hc :
      calculate_scores env.rnet env.openaiScrape
        (crawl_site env.net (env.parseUrl a.url) a.depth) with
  | error e =>
    rw [hc] at h
    simp [Except.bind] at h
  | ok results =>
    rw [hc] at h
    simp only [Except.bind] at h
    rw [h1] at h
    simp only [if_true] at h
    rw [h2, h3] at h
    simp [apiKeyErrorLine] at h
    exact h.symm

/-- C9, witness for the amended claim at the concrete keyless invocation. -/
theorem c9_witness :
    ∃ effs, audit cliEnvNoKey cliArgsNoKey = Except.ok effs ∧
      effs =
        [Effect.echo ("Auditing " ++ cliArgsNoKey.url ++ " with depth " ++
          Nat.repr cliArgsNoKey.depth ++ "..."),
         Effect.echo apiKeyErrorLine] := by
  refine ⟨_, audit_noKey_eval, ?_⟩
  exact c9_missing_key_aborts cliEnvNoKey cliArgsNoKey _ rfl rfl rfl
    audit_noKey_eval
